import Mathlib

/-!
Verification development for the LMArena bridge API server (`api_server.py`).

This file gives a shallow embedding of the server's core logic:

* the incremental stream decoder `_process_lmarena_stream` (regex token
  extraction over an accumulating buffer, error classification, the
  Cloudflare-verification flag, the `[DONE]` sentinel and the timeout),
* the response formatters `stream_generator` and `non_stream_response`,
* the request translator pieces `_process_openai_message` and the
  `--bypass` image compatibility transform of
  `convert_openai_to_lmarena_payload`,
* the WebSocket disconnect cleanup and the session-id validation of
  `chat_completions`,

together with theorems about the behaviour of these functions.  Python
strings are modelled as `String` / `List Char`, JSON values by an explicit
inductive type `JVal`, and the `re` searches used by the decoder by
executable functions that implement the exact leftmost-match semantics of
the source patterns.
-/

namespace LMArenaBridge

/-- The `\x7b` character (left curly bracket), named to keep string and
character literals free of raw bracket characters. -/
def lbrace : Char := Char.ofNat 123

/-- The `\x7d` character (right curly bracket). -/
def rbrace : Char := Char.ofNat 125

/-- The single-quote character, used by the Python `repr` rendering. -/
def squote : String := String.mk [Char.ofNat 39]

/-- Whitespace set of Python `str.strip` (ASCII part). -/
def isPySpace (c : Char) : Bool :=
  c = ' ' || c = '\t' || c = '\n' || c = '\r' || c = Char.ofNat 11 || c = Char.ofNat 12

/-- Python `str.strip()`: remove leading and trailing whitespace. -/
def pyStrip (s : String) : String :=
  String.mk (((s.toList.dropWhile isPySpace).reverse.dropWhile isPySpace).reverse)

/-- Python `str.lower()` (ASCII case folding). -/
def strLower (s : String) : String := String.mk (s.toList.map Char.toLower)

/-- Does the first list occur as a leading segment of the second? -/
def listStartsWith : List Char → List Char → Bool
  | [], _ => true
  | _ :: _, [] => false
  | p :: ps, c :: cs => p = c && listStartsWith ps cs

/-- Does `needle` occur anywhere inside the second list?  Models the Python
`in` operator on strings. -/
def listSearch (needle : List Char) : List Char → Bool
  | [] => needle.isEmpty
  | c :: cs => listStartsWith needle (c :: cs) || listSearch needle cs

/-- Python `needle in hay` for strings. -/
def strContains (hay needle : String) : Bool := listSearch needle.toList hay.toList

/-- Python `s.startswith(p)`. -/
def strStartsWith (s p : String) : Bool := listStartsWith p.toList s.toList

/-- Python `s.endswith(p)`. -/
def strEndsWith (s p : String) : Bool := listStartsWith p.toList.reverse s.toList.reverse

/-- Match one pattern character of the Cloudflare challenge patterns:
`.` is the regex wildcard (anything but a newline), every other character
matches case-insensitively (the searches use `re.IGNORECASE`). -/
def patCharMatch (p c : Char) : Bool :=
  if p = '.' then !(c = '\n') else p.toLower = c.toLower

/-- Does the pattern match a leading segment of the text? -/
def patStartsWith : List Char → List Char → Bool
  | [], _ => true
  | _ :: _, [] => false
  | p :: ps, c :: cs => patCharMatch p c && patStartsWith ps cs

/-- `re.search` of a literal-with-wildcards pattern, `re.IGNORECASE`. -/
def patSearch (pat : List Char) : List Char → Bool
  | [] => pat.isEmpty
  | c :: cs => patStartsWith pat (c :: cs) || patSearch pat cs

/-- The two `cloudflare_patterns` of `_process_lmarena_stream`, searched with
`re.IGNORECASE`. -/
def cloudflare_patterns_search (buf : List Char) : Bool :=
  patSearch ("<title>Just a moment...</title>".toList) buf ||
  patSearch ("Enable JavaScript and cookies to continue".toList) buf

/-- JSON values, as produced by Python's `json.loads`.  Numbers keep their
source text (no claim depends on numeric values). -/
inductive JVal where
  | null
  | bool (b : Bool)
  | num (raw : String)
  | str (s : String)
  | arr (elems : List JVal)
  | obj (fields : List (String × JVal))

/-- Python `x == "lit"` for a JSON value `x`: true only for the equal string. -/
def JVal.isStrEq : JVal → String → Bool
  | .str s, t => s = t
  | _, _ => false

/-- Python `d.get(k)` on a JSON value: field lookup on objects (duplicate keys
keep the last binding, as in `json.loads`), `none` otherwise. -/
def JVal.getKey : JVal → String → Option JVal
  | .obj kvs, k => (kvs.reverse.find? (fun p => p.1 = k)).map (fun p => p.2)
  | _, _ => none

/-- Python `d.get(k, default)`. -/
def JVal.getWithDefault (j : JVal) (k : String) (d : JVal) : JVal :=
  (j.getKey k).getD d

/-- Python `k in d` for a JSON object. -/
def JVal.hasKey : JVal → String → Bool
  | .obj kvs, k => kvs.any (fun p => p.1 = k)
  | _, _ => false

/-- Value of a hexadecimal digit. -/
def hexVal (c : Char) : Option Nat :=
  if '0' ≤ c ∧ c ≤ '9' then some (c.toNat - 48)
  else if 'a' ≤ c ∧ c ≤ 'f' then some (c.toNat - 87)
  else if 'A' ≤ c ∧ c ≤ 'F' then some (c.toNat - 55)
  else none

/-- Single-character JSON string escapes. -/
def jsonEscChar (c : Char) : Option Char :=
  if c = '"' then some '"'
  else if c = '\\' then some '\\'
  else if c = '/' then some '/'
  else if c = 'b' then some (Char.ofNat 8)
  else if c = 'f' then some (Char.ofNat 12)
  else if c = 'n' then some '\n'
  else if c = 'r' then some '\r'
  else if c = 't' then some '\t'
  else none

/-- Body of a JSON string after the opening quote: returns the decoded
characters and the input remaining after the closing quote.  Raw control
characters and invalid escapes are rejected, as `json.loads` does. -/
def jsonStringBody : List Char → Option (List Char × List Char)
  | [] => none
  | c :: rest =>
    if c = '"' then some ([], rest)
    else if c = '\\' then
      match rest with
      | [] => none
      | e :: rest2 =>
        if e = 'u' then
          match rest2 with
          | a :: b :: c2 :: d :: rest3 =>
            match hexVal a, hexVal b, hexVal c2, hexVal d with
            | some x, some y, some z, some w =>
              (jsonStringBody rest3).map fun p =>
                (Char.ofNat (((x * 16 + y) * 16 + z) * 16 + w) :: p.1, p.2)
            | _, _, _, _ => none
          | _ => none
        else
          match jsonEscChar e with
          | some ch => (jsonStringBody rest2).map fun p => (ch :: p.1, p.2)
          | none => none
    else if c.toNat < 32 then none
    else (jsonStringBody rest).map fun p => (c :: p.1, p.2)

/-- Models `json.loads` applied to the quoted text-token group, i.e. the
source expression `json.loads(<quote> + group + <quote>)` used on every
extracted text token: decode the group as the body of a JSON string. -/
def json_loads_quoted (g : List Char) : Option String :=
  match jsonStringBody (g ++ ['"']) with
  | some (cs, []) => some (String.mk cs)
  | _ => none

/-- Leading digit run of the input. -/
def takeDigits (cs : List Char) : List Char × List Char :=
  (cs.takeWhile Char.isDigit, cs.dropWhile Char.isDigit)

/-- Integer part of a JSON number: `0` or a nonzero digit run. -/
def jsonIntPart (cs : List Char) : Option (List Char × List Char) :=
  match cs with
  | '0' :: r => some (['0'], r)
  | c :: _ => if c.isDigit then some (takeDigits cs) else none
  | [] => none

/-- Optional fraction part of a JSON number. -/
def jsonFracPart : List Char → Option (List Char × List Char)
  | '.' :: r =>
    let (ds, r2) := takeDigits r
    if ds.isEmpty then none else some ('.' :: ds, r2)
  | cs => some ([], cs)

/-- Optional exponent part of a JSON number. -/
def jsonExpPart : List Char → Option (List Char × List Char)
  | c :: r =>
    if c = 'e' || c = 'E' then
      let (sg, r1) : List Char × List Char :=
        match r with
        | s :: r2 => if s = '+' || s = '-' then ([s], r2) else ([], s :: r2)
        | [] => ([], [])
      let (ds, r2) := takeDigits r1
      if ds.isEmpty then none else some (c :: (sg ++ ds), r2)
    else some ([], c :: r)
  | [] => some ([], [])

/-- A JSON number at the head of the input (source text and remainder). -/
def jsonNumber (cs : List Char) : Option (List Char × List Char) :=
  let (sg, cs1) : List Char × List Char :=
    match cs with
    | '-' :: r => (['-'], r)
    | _ => ([], cs)
  match jsonIntPart cs1 with
  | none => none
  | some (ip, cs2) =>
    match jsonFracPart cs2 with
    | none => none
    | some (fp, cs3) =>
      match jsonExpPart cs3 with
      | none => none
      | some (ep, cs4) => some (sg ++ ip ++ fp ++ ep, cs4)

/-- JSON insignificant whitespace. -/
def jsonWs (c : Char) : Bool := c = ' ' || c = '\t' || c = '\n' || c = '\r'

mutual

/-- A JSON value at the head of the input (fuelled recursive descent). -/
def parseJVal : Nat → List Char → Option (JVal × List Char)
  | 0, _ => none
  | fuel + 1, cs =>
    let cs := cs.dropWhile jsonWs
    match cs with
    | [] => none
    | c :: rest =>
      if c = '"' then
        (jsonStringBody rest).map fun p => (JVal.str (String.mk p.1), p.2)
      else if c = lbrace then parseObjBody fuel rest
      else if c = '[' then parseArrBody fuel rest
      else if listStartsWith "true".toList cs then some (.bool true, cs.drop 4)
      else if listStartsWith "false".toList cs then some (.bool false, cs.drop 5)
      else if listStartsWith "null".toList cs then some (.null, cs.drop 4)
      else (jsonNumber cs).map fun p => (JVal.num (String.mk p.1), p.2)

/-- Object body after the opening bracket. -/
def parseObjBody : Nat → List Char → Option (JVal × List Char)
  | 0, _ => none
  | fuel + 1, cs =>
    let cs := cs.dropWhile jsonWs
    match cs with
    | c :: rest => if c = rbrace then some (.obj [], rest) else parseObjFields fuel (c :: rest) []
    | [] => none

/-- One or more `"key": value` members, comma separated. -/
def parseObjFields : Nat → List Char → List (String × JVal) → Option (JVal × List Char)
  | 0, _, _ => none
  | fuel + 1, cs, acc =>
    let cs := cs.dropWhile jsonWs
    match cs with
    | c :: rest =>
      if c = '"' then
        match jsonStringBody rest with
        | none => none
        | some (key, r1) =>
          match r1.dropWhile jsonWs with
          | ':' :: r2 =>
            match parseJVal fuel r2 with
            | none => none
            | some (v, r3) =>
              match r3.dropWhile jsonWs with
              | ',' :: r4 => parseObjFields fuel r4 (acc ++ [(String.mk key, v)])
              | d :: r4 =>
                if d = rbrace then some (.obj (acc ++ [(String.mk key, v)]), r4) else none
              | [] => none
          | _ => none
      else none
    | [] => none

/-- Array body after the opening bracket. -/
def parseArrBody : Nat → List Char → Option (JVal × List Char)
  | 0, _ => none
  | fuel + 1, cs =>
    let cs := cs.dropWhile jsonWs
    match cs with
    | ']' :: rest => some (.arr [], rest)
    | _ :: _ => parseArrElems fuel cs []
    | [] => none

/-- One or more array elements, comma separated. -/
def parseArrElems : Nat → List Char → List JVal → Option (JVal × List Char)
  | 0, _, _ => none
  | fuel + 1, cs, acc =>
    match parseJVal fuel cs with
    | none => none
    | some (v, r1) =>
      match r1.dropWhile jsonWs with
      | ',' :: r2 => parseArrElems fuel r2 (acc ++ [v])
      | ']' :: r2 => some (.arr (acc ++ [v]), r2)
      | _ => none

end

/-- Python `json.loads` on a character list: one JSON value followed only by
whitespace.  The fuel `3 * length + 3` dominates the recursion depth. -/
def json_loads (s : List Char) : Option JVal :=
  match parseJVal (3 * s.length + 3) s with
  | some (v, rest) => if (rest.dropWhile jsonWs).isEmpty then some v else none
  | none => none

/-- Python `repr` of a JSON value (used for values nested inside containers
when the server formats an error object with `str`). -/
def pyRepr : JVal → String
  | .null => "None"
  | .bool true => "True"
  | .bool false => "False"
  | .num raw => raw
  | .str s => squote ++ s ++ squote
  | .arr xs => "[" ++ String.intercalate ", " (xs.attach.map (fun x => pyRepr x.1)) ++ "]"
  | .obj kvs =>
    String.mk [lbrace] ++
      String.intercalate ", "
        (kvs.attach.map (fun p => squote ++ p.1.1 ++ squote ++ ": " ++ pyRepr p.1.2)) ++
      String.mk [rbrace]
decreasing_by
· have h := List.sizeOf_lt_of_mem x.2
  simp only [JVal.arr.sizeOf_spec]
  omega
· have h := List.sizeOf_lt_of_mem p.2
  have h2 : sizeOf p.1.2 < sizeOf p.1 := by
    obtain ⟨⟨a, b⟩, hp⟩ := p
    simp only [Prod.mk.sizeOf_spec]
    omega
  simp only [JVal.obj.sizeOf_spec]
  omega

/-- Python `str` of a JSON value: a string renders as itself, containers
render like `repr`. -/
def pyStr (v : JVal) : String :=
  match v with
  | .str s => s
  | other => pyRepr other

/-!
Regex searches of the decoder.  Each search implements the leftmost-match
semantics of `re.search` for the concrete pattern used in the source;
the body of every pattern is deterministic (the greedy escaped-string body
can only stop where it does, and a lazy `.*?` takes the earliest viable
continuation), so backtracking never changes the result.
-/

/-- Greedy body of the text-token pattern after its opening quote:
`(?:\\.|[^"\\])*` followed by the closing quote.  Returns the raw group
text and the input remaining after the closing quote. -/
def scanEsc : List Char → Option (List Char × List Char)
  | [] => none
  | c :: rest =>
    if c = '"' then some ([], rest)
    else if c = '\\' then
      match rest with
      | [] => none
      | e :: rest2 => (scanEsc rest2).map fun p => (c :: e :: p.1, p.2)
    else (scanEsc rest).map fun p => (c :: p.1, p.2)

/-- `re.search` of the source `text_pattern`, one complete text token
`<a|b>0:"<escaped>"`: group text and the buffer remaining after the match
end (the source keeps only `buffer[match.end():]`, so the part before the
match is discarded together with the match). -/
def text_pattern_search : List Char → Option (List Char × List Char)
  | [] => none
  | c :: rest =>
    if c = 'a' || c = 'b' then
      match rest with
      | '0' :: ':' :: '"' :: body =>
        match scanEsc body with
        | some p => some p
        | none => text_pattern_search rest
      | _ => text_pattern_search rest
    else text_pattern_search rest

/-- Lazy scan to the next right square bracket with no intervening newline
(the `.` of the pattern does not match a newline).  Returns the consumed
text including the bracket, and the remainder. -/
def scanToRBracket : List Char → Option (List Char × List Char)
  | [] => none
  | c :: rest =>
    if c = ']' then some ([c], rest)
    else if c = '\n' then none
    else (scanToRBracket rest).map fun p => (c :: p.1, p.2)

/-- `re.search` of the source `image_pattern`, one media-array token
`<a|b>2:[...]`: the bracketed group and the buffer after the match end. -/
def image_pattern_search : List Char → Option (List Char × List Char)
  | [] => none
  | c :: rest =>
    if c = 'a' || c = 'b' then
      match rest with
      | '2' :: ':' :: '[' :: body =>
        match scanToRBracket body with
        | some p => some ('[' :: p.1, p.2)
        | none => image_pattern_search rest
      | _ => image_pattern_search rest
    else image_pattern_search rest

/-- Lazy scan to the earliest occurrence of a literal with no intervening
newline: returns the consumed text including the literal, and the rest. -/
def scanToLit (lit : List Char) : List Char → Option (List Char × List Char)
  | [] => if lit.isEmpty then some (lit, []) else none
  | c :: rest =>
    if listStartsWith lit (c :: rest) then some (lit, (c :: rest).drop lit.length)
    else if c = '\n' then none
    else (scanToLit lit rest).map fun p => (c :: p.1, p.2)

/-- `re.search` of the source `finish_pattern`, a finish token
`<a|b>d:` followed by a bracketed object containing the literal
`"finishReason"`: the bracketed group and the buffer after the match end.
If the inner lazy scans fail at a start, no later lazy extension at the
same start can succeed, so the search moves to the next start position. -/
def finish_pattern_search : List Char → Option (List Char × List Char)
  | [] => none
  | c :: rest =>
    if c = 'a' || c = 'b' then
      match rest with
      | d :: ':' :: ob :: body =>
        if d = 'd' ∧ ob = lbrace then
          match scanToLit ("\"finishReason\"".toList) body with
          | some (seg1, r1) =>
            match scanToLit [rbrace] r1 with
            | some (seg2, r2) => some (ob :: (seg1 ++ seg2), r2)
            | none => finish_pattern_search rest
          | none => finish_pattern_search rest
        else finish_pattern_search rest
      | _ => finish_pattern_search rest
    else finish_pattern_search rest

/-- Lazy scan to the earliest right curly bracket, any character allowed in
between (the `error_pattern` is compiled with `re.DOTALL`). -/
def scanToRBraceDotall : List Char → Option (List Char × List Char)
  | [] => none
  | c :: rest =>
    if c = rbrace then some ([c], rest)
    else (scanToRBraceDotall rest).map fun p => (c :: p.1, p.2)

/-- `re.search` of the source `error_pattern`: a curly-bracketed group whose
opening bracket is followed by optional whitespace (`\s*`, the ASCII
whitespace set) and the literal `"error"`.  Only the group is needed (the
decoder returns on a successful parse and leaves the buffer untouched
otherwise). -/
def error_pattern_search : List Char → Option (List Char)
  | [] => none
  | c :: rest =>
    if c = lbrace then
      let ws := rest.takeWhile isPySpace
      let r1 := rest.dropWhile isPySpace
      if listStartsWith ("\"error\"".toList) r1 then
        match scanToRBraceDotall (r1.drop 7) with
        | some (seg, _) => some (c :: (ws ++ "\"error\"".toList ++ seg))
        | none => error_pattern_search rest
      else error_pattern_search rest
    else error_pattern_search rest

/-!
The stream decoder `_process_lmarena_stream`, its per-request state and the
process-wide verification flag.
-/

/-- Process-wide state relevant to the decoder: the
`IS_REFRESHING_FOR_VERIFICATION` flag and whether `browser_ws` is set. -/
structure GlobalState where
  isRefreshingForVerification : Bool
  browserConnected : Bool

/-- Commands the server can send to the remote userscript over the
WebSocket while decoding. -/
inductive BrowserCommand where
  | refresh

/-- The nested `handle_cloudflare_verification` helper: on the first
detection it sets the process-wide flag and (if a browser is connected)
sends one `refresh` command; later detections return the waiting message
and send nothing. -/
def handle_cloudflare_verification (g : GlobalState) :
    GlobalState × String × List BrowserCommand :=
  if !g.isRefreshingForVerification then
    ({ g with isRefreshingForVerification := true },
     "检测到人机验证，已发送刷新指令，请稍后重试。",
     if g.browserConnected then [BrowserCommand.refresh] else [])
  else
    (g, "正在等待人机验证完成...", [])

/-- Structured events produced by the decoder, consumed by the formatters. -/
inductive StreamEvent where
  | content (text : String)
  | finish (reason : JVal)
  | error (message : JVal)

/-- One raw fragment taken from a request's inbox queue: a plain string, a
list of strings (joined before buffering), or an object carrying an
`error` member.  The terminal sentinel is the plain string `[DONE]`. -/
inductive Fragment where
  | text (s : String)
  | textList (items : List String)
  | errDict (errorValue : JVal)

/-- Per-request decoder state: the accumulating buffer and the
`has_yielded_content` flag. -/
structure DecodeState where
  buffer : List Char
  hasYieldedContent : Bool

/-- Result of feeding one fragment to the decoder: the events produced, the
updated per-request and process-wide state, commands sent, and whether the
decode loop terminated (an error `return` or the `[DONE]` break). -/
structure StepResult where
  events : List StreamEvent
  state : DecodeState
  global : GlobalState
  commands : List BrowserCommand
  halt : Bool

/-- The user-facing message substituted for an upstream oversized-attachment
error (the `413` / `too large` classification). -/
def friendly_attachment_error : String :=
  "上传失败：附件大小超过了 LMArena 服务器的限制 (通常是 5MB左右)。请尝试压缩文件或上传更小的文件。"

/-- Default message when an inline error object has no usable member. -/
def unknown_lmarena_error : String := "来自 LMArena 的未知错误"

/-- The repeated text-token extraction loop of the decoder (fuelled; each
match consumes at least one character).  Emits a `content` event for every
token whose unescaped text is non-empty; a token that fails to unescape is
skipped but still consumed. -/
def text_token_loop : Nat → List Char → List StreamEvent × List Char
  | 0, buf => ([], buf)
  | fuel + 1, buf =>
    match text_pattern_search buf with
    | none => ([], buf)
    | some (group, rest) =>
      let evs : List StreamEvent :=
        match json_loads_quoted group with
        | some s => if s = "" then [] else [StreamEvent.content s]
        | none => []
      let (evs2, buf2) := text_token_loop fuel rest
      (evs ++ evs2, buf2)

/-- Events produced from one extracted media-array group: parse it as JSON,
and if its first element is an object tagged `type: image` with an `image`
member, emit the markdown-wrapped reference.  A parse failure produces no
event (the source logs and moves on); a first element that is not an
object raises an uncaught exception in the source and is modelled as
producing no event. -/
def image_group_events (group : List Char) : List StreamEvent :=
  match json_loads group with
  | some (.arr (first :: _)) =>
    if ((first.getKey "type").map (fun v => v.isStrEq "image")).getD false
        && first.hasKey "image" then
      match first.getKey "image" with
      | some v => [StreamEvent.content ("![Image](" ++ pyStr v ++ ")")]
      | none => []
    else []
  | _ => []

/-- The repeated media-array extraction loop of the decoder. -/
def image_token_loop : Nat → List Char → List StreamEvent × List Char
  | 0, buf => ([], buf)
  | fuel + 1, buf =>
    match image_pattern_search buf with
    | none => ([], buf)
    | some (group, rest) =>
      let (evs2, buf2) := image_token_loop fuel rest
      (image_group_events group ++ evs2, buf2)

/-- The single finish-token extraction of the decoder: decode the group as
JSON and emit `finish` with its `finishReason` (default `stop`); the match
is consumed even when the group fails to parse. -/
def finish_token_step (buf : List Char) : List StreamEvent × List Char :=
  match finish_pattern_search buf with
  | none => ([], buf)
  | some (group, rest) =>
    match json_loads group with
    | some jv => ([StreamEvent.finish (jv.getWithDefault "finishReason" (JVal.str "stop"))], rest)
    | none => ([], rest)

/-- The inline error-object check of the decoder: a matching group that
parses as JSON terminates the request with its `error` member; a group
that fails to parse is ignored (`pass`) and the buffer is left whole. -/
def error_pattern_step (buf : List Char) : Option JVal :=
  match error_pattern_search buf with
  | none => none
  | some group =>
    match json_loads group with
    | some jv => some (jv.getWithDefault "error" (JVal.str unknown_lmarena_error))
    | none => none

/-- Steps 3-6 of the decoder loop body: append the incoming text to the
buffer, check the challenge-page and inline-error patterns, then run the
token extraction loops. -/
def process_buffer_update (g : GlobalState) (st : DecodeState) (incoming : List Char) :
    StepResult :=
  let buf := st.buffer ++ incoming
  if cloudflare_patterns_search buf then
    let r := handle_cloudflare_verification g
    ⟨[.error (.str r.2.1)], st, r.1, r.2.2, true⟩
  else
    match error_pattern_step buf with
    | some e => ⟨[.error e], st, g, [], true⟩
    | none =>
      let (evs1, buf1) := text_token_loop (buf.length + 1) buf
      let (evs2, buf2) := image_token_loop (buf1.length + 1) buf1
      let (evs3, buf3) := finish_token_step buf2
      ⟨evs1 ++ evs2 ++ evs3,
       ⟨buf3, st.hasYieldedContent || !evs1.isEmpty⟩, g, [], false⟩

/-- One iteration of the decoder loop on one inbox fragment, in the source's
priority order: structured error fragments first (size-limit phrase, then
challenge-page markers, then the raw message), then the `[DONE]` sentinel,
then the buffer update. -/
def process_fragment (g : GlobalState) (st : DecodeState) : Fragment → StepResult
  | .errDict e =>
    match e with
    | .str msg =>
      if strContains msg "413" || strContains (strLower msg) "too large" then
        ⟨[.error (.str friendly_attachment_error)], st, g, [], true⟩
      else if cloudflare_patterns_search msg.toList then
        let r := handle_cloudflare_verification g
        ⟨[.error (.str r.2.1)], st, r.1, r.2.2, true⟩
      else ⟨[.error (.str msg)], st, g, [], true⟩
    | other => ⟨[.error other], st, g, [], true⟩
  | .text s =>
    if s = "[DONE]" then ⟨[], st, g, [], true⟩
    else process_buffer_update g st s.toList
  | .textList items => process_buffer_update g st (String.join items).toList

/-- Run the decoder over a list of inbox fragments.  The final boolean says
whether the loop terminated (break or error return) before the list ran
out; when it did not, the decoder is still waiting on the queue. -/
def process_stream (g : GlobalState) (st : DecodeState) :
    List Fragment → List StreamEvent × GlobalState × List BrowserCommand × Bool
  | [] => ([], g, [], false)
  | f :: rest =>
    let r := process_fragment g st f
    if r.halt then (r.events, r.global, r.commands, true)
    else
      let (evs, g2, cmds, t) := process_stream r.global r.state rest
      (r.events ++ evs, g2, r.commands ++ cmds, t)

/-- The timeout message of the decoder's `asyncio.TimeoutError` handler. -/
def timeout_error_message (timeout : Nat) : String :=
  "Response timed out after " ++ toString timeout ++ " seconds."

/-- `_process_lmarena_stream` on the complete sequence of fragments a
request's inbox ever receives: if the loop has not terminated when the
fragments run out, the next wait on the queue times out and the decoder
emits the single timeout error. -/
def process_lmarena_stream (g : GlobalState) (st : DecodeState) (timeout : Nat)
    (frags : List Fragment) : List StreamEvent × GlobalState × List BrowserCommand :=
  match process_stream g st frags with
  | (evs, g2, cmds, true) => (evs, g2, cmds)
  | (evs, g2, cmds, false) =>
    (evs ++ [.error (.str (timeout_error_message timeout))], g2, cmds)

/-- A fresh decoder state: empty buffer, nothing yielded. -/
def initial_decode : DecodeState := ⟨[], false⟩

/-- Process-wide state with a connected browser and no pending verification. -/
def connected_global : GlobalState := ⟨false, true⟩

/-!
Response formatters: the incremental `stream_generator` and the aggregated
`non_stream_response`.
-/

/-- The warning appended by both formatters when a finish event carries the
reason `content-filter`. -/
def content_filter_warning : String :=
  "\n\n响应被终止，可能是上下文超限或者模型内部审查（大概率）的原因"

/-- An SSE block of the streaming response: a delta-content chunk
(`format_openai_chunk`) or the closing chunk with a finish reason followed
by the end-of-stream marker (`format_openai_finish_chunk`). -/
inductive SSEChunk where
  | content (text : String)
  | finishChunk (reason : JVal)

/-- Delta text of `format_openai_error_chunk`. -/
def format_openai_error_chunk_text (m : JVal) : String :=
  "\n\n[LMArena Bridge Error]: " ++ pyStr m

/-- The body of `stream_generator`: one content chunk per content event; a
finish event updates the remembered reason (adding the warning chunk for
`content-filter`) but keeps streaming; an error event emits the embedded
error text, a closing `stop` chunk, and stops at once; natural exhaustion
emits the closing chunk with the last-seen reason. -/
def stream_generator_fold (finishReason : JVal) : List StreamEvent → List SSEChunk
  | [] => [.finishChunk finishReason]
  | .content s :: rest => .content s :: stream_generator_fold finishReason rest
  | .finish r :: rest =>
    (if r.isStrEq "content-filter" then [SSEChunk.content content_filter_warning] else [])
      ++ stream_generator_fold r rest
  | .error m :: _ =>
    [.content (format_openai_error_chunk_text m), .finishChunk (.str "stop")]

/-- `stream_generator` over a decoded event sequence (initial reason `stop`). -/
def stream_generator (events : List StreamEvent) : List SSEChunk :=
  stream_generator_fold (JVal.str "stop") events

/-- Outcome of the aggregated (non-stream) path: either the assembled
response content with its finish reason, or an error-shaped response with
an HTTP status and error code. -/
inductive NonStreamResult where
  | ok (content : String) (finishReason : JVal)
  | err (status : Nat) (code : String) (message : String)

/-- The substring of the friendly oversized-attachment message that the
aggregated path looks for when selecting the 413 status. -/
def oversized_marker : String := "附件大小超过了"

/-- The body of `non_stream_response`: accumulate content, remember the last
finish reason (appending the warning for `content-filter`), and on an
error build the error-shaped response — status 413 with code
`attachment_too_large` when the message carries the oversized marker,
otherwise status 500 with code `processing_error`. -/
def non_stream_fold (acc : String) (finishReason : JVal) : List StreamEvent → NonStreamResult
  | [] => .ok acc finishReason
  | .content s :: rest => non_stream_fold (acc ++ s) finishReason rest
  | .finish r :: rest =>
    non_stream_fold (acc ++ (if r.isStrEq "content-filter" then content_filter_warning else ""))
      r rest
  | .error m :: _ =>
    let status : Nat := if strContains (pyStr m) oversized_marker then 413 else 500
    .err status (if status = 413 then "attachment_too_large" else "processing_error")
      ("[LMArena Bridge Error]: " ++ pyStr m)

/-- `non_stream_response` over a decoded event sequence. -/
def non_stream_response (events : List StreamEvent) : NonStreamResult :=
  non_stream_fold "" (JVal.str "stop") events

/-!
Request translation: `_process_openai_message` and the `--bypass` image
compatibility transform of `convert_openai_to_lmarena_payload`.
-/

/-- An attachment reference carried by a message template. -/
structure Attachment where
  name : String
  contentType : String
  url : String

deriving instance DecidableEq for Attachment

/-- One entry of `message_templates`. -/
structure MessageTemplate where
  role : String
  content : String
  attachments : List Attachment

deriving instance DecidableEq for MessageTemplate

/-- One part of a multi-part OpenAI message content. -/
inductive ContentPart where
  | text (t : String)
  | image_url (url : String) (detail : Option String)

/-- The `content` member of an OpenAI message: a list of parts, a plain
string, or anything else (treated as empty text). -/
inductive MsgContent where
  | parts (l : List ContentPart)
  | plain (s : String)
  | absent

/-- Python `str.lstrip` limited to the dot character. -/
def lstripDots (s : String) : String := String.mk (s.toList.dropWhile (fun c => c = '.'))

/-- Content type extracted from a `data:` URL:
`url.split(<semicolon>)[0].split(<colon>)[1]`. -/
def data_url_content_type (url : String) : Option String :=
  (((url.splitOn ";").headD "").splitOn ":").get? 1

/-- The generated fallback file name `image_<uuid>.<ext>`: absent when the
extension guesser returns nothing (the source then raises and skips the
attachment). -/
def fresh_image_name (guessExt : String → Option String) (uuid ct : String) : Option String :=
  (guessExt ct).map fun e =>
    let e2 := lstripDots e
    "image_" ++ uuid ++ "." ++ (if e2 = "" then "png" else e2)

/-- Build one attachment from an `image_url` part.  `guessType` and
`guessExt` stand for `mimetypes.guess_type` / `guess_extension`; `uuid`
for the generated identifier.  `none` models the logged-and-skipped
exception paths. -/
def attachment_of_image_part (guessType guessExt : String → Option String)
    (uuid : String) (url : String) (detail : Option String) : Option Attachment :=
  let ct? : Option String :=
    if strStartsWith url "data:" then data_url_content_type url
    else some ((guessType url).getD "application/octet-stream")
  match ct? with
  | none => none
  | some ct =>
    let name? : Option String :=
      match detail with
      | some d => if d = "" then fresh_image_name guessExt uuid ct else some d
      | none => fresh_image_name guessExt uuid ct
    match name? with
    | none => none
    | some n => some ⟨n, ct, url⟩

/-- Prepend an attachment when one was built (a part whose attachment
construction failed is skipped). -/
def consAttachment (a? : Option Attachment) (l : List Attachment) : List Attachment :=
  match a? with
  | some a => a :: l
  | none => l

/-- The part loop of `_process_openai_message`: text parts in order, and the
attachments built from the image parts (`uuids i` names the identifier
generated for part `i`). -/
def process_parts (guessType guessExt : String → Option String) (uuids : Nat → String)
    (i : Nat) : List ContentPart → List String × List Attachment
  | [] => ([], [])
  | .text t :: rest =>
    let r := process_parts guessType guessExt uuids (i + 1) rest
    (t :: r.1, r.2)
  | .image_url url detail :: rest =>
    let r := process_parts guessType guessExt uuids (i + 1) rest
    (r.1, consAttachment (attachment_of_image_part guessType guessExt (uuids i) url detail) r.2)

/-- `_process_openai_message`: split the content into text plus attachments,
join text parts with a blank line, and replace a whitespace-only user text
with a single space. -/
def process_openai_message (guessType guessExt : String → Option String)
    (uuids : Nat → String) (role : String) (content : MsgContent) : MessageTemplate :=
  let tc : String × List Attachment :=
    match content with
    | .parts l =>
      let r := process_parts guessType guessExt uuids 0 l
      (String.intercalate "\n\n" r.1, r.2)
    | .plain s => (s, [])
    | .absent => ("", [])
  let textContent := if role == "user" && (pyStrip tc.1 == "") then " " else tc.1
  ⟨role, textContent, tc.2⟩

/-- Python `s[: len s - n]` (the source's `[:-9]`, clamped at the empty
string). -/
def strDropRight (s : String) (n : Nat) : String :=
  String.mk (s.toList.take (s.toList.length - n))

/-- Does any attachment carry an `image/…` content type? -/
def hasImageAttachment (atts : List Attachment) : Bool :=
  atts.any (fun a => strStartsWith a.contentType "image/")

/-- The synthetic minimal user turn prepended when the transformed list
starts with an assistant turn. -/
def fake_user_message : MessageTemplate := ⟨"user", "Hi", []⟩

/-- Step 4.5 of `convert_openai_to_lmarena_payload`: when the final message
is a user turn whose stripped content ends in `--bypass` and which carries
an image attachment, drop the last nine characters of the stripped content
(strip again), move all its attachments into a synthetic empty assistant
turn inserted immediately before it, and prepend a synthetic user turn if
the list then starts with an assistant turn. -/
def bypass_image_transform (ts : List MessageTemplate) : List MessageTemplate :=
  match ts.getLast? with
  | none => ts
  | some last =>
    if (last.role == "user") && strEndsWith (pyStrip last.content) "--bypass"
        && !last.attachments.isEmpty then
      if hasImageAttachment last.attachments then
        let stripped : MessageTemplate :=
          { last with content := pyStrip (strDropRight (pyStrip last.content) 9),
                      attachments := [] }
        let moved : MessageTemplate := ⟨"assistant", "", last.attachments⟩
        let ts2 := ts.dropLast ++ [moved, stripped]
        match ts2.head? with
        | some h => if h.role = "assistant" then fake_user_message :: ts2 else ts2
        | none => ts2
      else ts
    else ts

/-!
WebSocket lifecycle: the disconnect cleanup of `websocket_endpoint` and the
state reset on a new connection.
-/

/-- The synthetic fragment pushed into every pending inbox when the browser
link disconnects. -/
def browser_disconnect_fragment : Fragment :=
  .errDict (.str "Browser disconnected during operation")

/-- The `finally` block of `websocket_endpoint`: push the synthetic error
fragment into every pending response channel, then clear the table.
Returns the channel contents as delivered, and the cleared table. -/
def websocket_disconnect_cleanup (channels : List (String × List Fragment)) :
    List (String × List Fragment) × List (String × List Fragment) :=
  (channels.map (fun p => (p.1, p.2 ++ [browser_disconnect_fragment])), [])

/-- Connection establishment in `websocket_endpoint`: installs the link and
resets the verification flag. -/
def websocket_new_connection (g : GlobalState) : GlobalState :=
  { g with isRefreshingForVerification := false, browserConnected := true }

/-!
Session-information validation of `chat_completions`.
-/

/-- Python falsiness of an optional string (`None` or empty). -/
def pyFalsyStr : Option String → Bool
  | none => true
  | some s => s == ""

/-- The guard of `chat_completions`: the resolved ids are invalid when one
is missing/empty or contains the placeholder `YOUR_`. -/
def session_info_invalid (sessionId messageId : Option String) : Bool :=
  pyFalsyStr sessionId || pyFalsyStr messageId ||
    strContains (sessionId.getD "") "YOUR_" || strContains (messageId.getD "") "YOUR_"

/-- Correlator-relevant state of `chat_completions`: the response-channel
table and the payloads sent over the browser link. -/
structure CorrelatorState where
  channels : List (String × List Fragment)
  sentPayloads : List String

/-- Outcome of the validation/registration slice of `chat_completions`. -/
inductive ChatOutcome where
  | reject (status : Nat)
  | registered (requestId : String)

/-- The slice of `chat_completions` from the session-information check to
channel registration and payload send: invalid ids raise HTTP 400 before
the channel is created and before anything reaches the link. -/
def chat_completions_validate_and_register (st : CorrelatorState)
    (sessionId messageId : Option String) (requestId : String) :
    CorrelatorState × ChatOutcome :=
  if session_info_invalid sessionId messageId then
    (st, .reject 400)
  else
    ({ channels := st.channels ++ [(requestId, [])],
       sentPayloads := st.sentPayloads ++ [requestId] },
     .registered requestId)

/-!
Concrete inputs and small auxiliary definitions used by the statements.
-/

/-- The fragment sequence of the finish/sentinel test: a text token, then a
finish marker, then the terminal sentinel. -/
def c1_fragments : List Fragment :=
  [.text "a0:\"Hi\"",
   .text ("ad:" ++ String.mk [lbrace] ++ "\"finishReason\":\"stop\"" ++ String.mk [rbrace]),
   .text "[DONE]"]

/-- A fragment consisting of one of the Cloudflare challenge-page markers. -/
def challenge_fragment : Fragment := .text "Enable JavaScript and cookies to continue"

/-- A one-message template list whose user turn ends in `--bypass` with no
separator before the suffix, and carries an image attachment. -/
def c5_claim_input : List MessageTemplate :=
  [⟨"user", "abc--bypass", [⟨"img.png", "image/png", "http://example/img.png"⟩]⟩]

/-- A character of an escaped text token that is matched by the character
class `[^"\\]` and accepted verbatim by the JSON string decoder: printable
(no control character), not a quote, not a backslash. -/
def plain_text_char (c : Char) : Bool :=
  Nat.ble 32 c.toNat && !(c = '"') && !(c = '\\')

/-- Concatenation of a list of strings. -/
def strJoin : List String → String
  | [] => ""
  | s :: rest => s ++ strJoin rest

/-!
Auxiliary lemmas.
-/

theorem strAppend_assoc (a b c : String) : a ++ b ++ c = a ++ (b ++ c) := by
  rcases a with ⟨la⟩; rcases b with ⟨lb⟩; rcases c with ⟨lc⟩
  show String.mk (la ++ lb ++ lc) = String.mk (la ++ (lb ++ lc))
  rw [List.append_assoc]

theorem strAppend_empty_left (s : String) : "" ++ s = s := by
  rcases s with ⟨l⟩
  show String.mk ([] ++ l) = String.mk l
  rw [List.nil_append]

theorem strAppend_empty_right (s : String) : s ++ "" = s := by
  rcases s with ⟨l⟩
  show String.mk (l ++ []) = String.mk l
  rw [List.append_nil]

/-- `scanEsc` skips over plain characters: the greedy body consumes them one
by one, so the result on `s ++ rest` is the result on `rest` with `s`
prepended to the group. -/
theorem scanEsc_append (s : List Char) (rest : List Char)
    (hs : s.all plain_text_char = true) :
    scanEsc (s ++ rest) = (scanEsc rest).map (fun p => (s ++ p.1, p.2)) := by
  induction s with
  | nil =>
    cases h : scanEsc rest <;> simp [h]
  | cons c cs ih =>
    simp only [List.all_cons, Bool.and_eq_true] at hs
    obtain ⟨hc, hcs⟩ := hs
    simp only [plain_text_char, Bool.and_eq_true, Bool.not_eq_true', decide_eq_false_iff_not]
      at hc
    have hstep : scanEsc (c :: (cs ++ rest))
        = (scanEsc (cs ++ rest)).map (fun p => (c :: p.1, p.2)) := by
      rw [scanEsc.eq_def]
      dsimp only
      rw [if_neg hc.1.2, if_neg hc.2]
    rw [List.cons_append, hstep, ih hcs]
    cases scanEsc rest <;> rfl

/-- `jsonStringBody` decodes plain characters verbatim. -/
theorem jsonStringBody_append (s : List Char) (rest : List Char)
    (hs : s.all plain_text_char = true) :
    jsonStringBody (s ++ rest) = (jsonStringBody rest).map (fun p => (s ++ p.1, p.2)) := by
  induction s with
  | nil =>
    cases h : jsonStringBody rest <;> simp [h]
  | cons c cs ih =>
    simp only [List.all_cons, Bool.and_eq_true] at hs
    obtain ⟨hc, hcs⟩ := hs
    simp only [plain_text_char, Bool.and_eq_true, Bool.not_eq_true', decide_eq_false_iff_not]
      at hc
    have h32 : ¬(c.toNat < 32) := by
      have := Nat.le_of_ble_eq_true hc.1.1
      omega
    have hstep : jsonStringBody (c :: (cs ++ rest))
        = (jsonStringBody (cs ++ rest)).map (fun p => (c :: p.1, p.2)) := by
      rw [jsonStringBody.eq_def]
      dsimp only
      rw [if_neg hc.1.2, if_neg hc.2, if_neg h32]
    rw [List.cons_append, hstep, ih hcs]
    cases jsonStringBody rest <;> rfl

/-- The part loop of the translator on a text-only part list. -/
theorem process_parts_text_only (guessType guessExt : String → Option String)
    (uuids : Nat → String) (texts : List String) (i : Nat) :
    process_parts guessType guessExt uuids i (texts.map ContentPart.text) = (texts, []) := by
  induction texts generalizing i with
  | nil => rfl
  | cons t ts ih => simp [process_parts, ih]

/-- The streaming formatter maps leading content events to content chunks. -/
theorem stream_generator_fold_contents (fr : JVal) (xs : List String)
    (es : List StreamEvent) :
    stream_generator_fold fr (xs.map StreamEvent.content ++ es)
      = xs.map SSEChunk.content ++ stream_generator_fold fr es := by
  induction xs with
  | nil => rfl
  | cons x xs ih => simp [stream_generator_fold, ih]

/-- The streaming formatter on content events only: chunks then the closing
chunk with the remembered reason. -/
theorem stream_generator_fold_contents_only (fr : JVal) (xs : List String) :
    stream_generator_fold fr (xs.map StreamEvent.content)
      = xs.map SSEChunk.content ++ [SSEChunk.finishChunk fr] := by
  induction xs with
  | nil => rfl
  | cons x xs ih => simp [stream_generator_fold, ih]

/-- The aggregator accumulates leading content events into the accumulator. -/
theorem non_stream_fold_contents (acc : String) (fr : JVal) (xs : List String)
    (es : List StreamEvent) :
    non_stream_fold acc fr (xs.map StreamEvent.content ++ es)
      = non_stream_fold (acc ++ strJoin xs) fr es := by
  induction xs generalizing acc with
  | nil => simp [strJoin, strAppend_empty_right]
  | cons x xs ih => simp [non_stream_fold, strJoin, ih, strAppend_assoc]

/-- The aggregator on content events only. -/
theorem non_stream_fold_contents_only (acc : String) (fr : JVal) (xs : List String) :
    non_stream_fold acc fr (xs.map StreamEvent.content) = .ok (acc ++ strJoin xs) fr := by
  induction xs generalizing acc with
  | nil => simp [strJoin, non_stream_fold, strAppend_empty_right]
  | cons x xs ih => simp [non_stream_fold, strJoin, ih, strAppend_assoc]

/-!
The claim theorems.
-/

/-- C7: for a message whose content is a list of parts, the translator joins
the text parts with a blank-line separator into one template with that
role, and a user message whose joined text strips to empty becomes a
single space; in particular two user text parts `a`, `b` give one template
with content `a`, blank line, `b`. -/
theorem c7_text_parts_concatenation :
    (∀ (guessType guessExt : String → Option String) (uuids : Nat → String)
       (role : String) (texts : List String),
       process_openai_message guessType guessExt uuids role
           (.parts (texts.map ContentPart.text))
         = ⟨role,
            if role == "user" && (pyStrip (String.intercalate "\n\n" texts) == "")
            then " " else String.intercalate "\n\n" texts,
            []⟩)
  ∧ (∀ (guessType guessExt : String → Option String) (uuids : Nat → String),
       process_openai_message guessType guessExt uuids "user"
           (.parts [ContentPart.text "a", ContentPart.text "b"])
         = ⟨"user", "a\n\nb", []⟩) := by
  constructor
  · intro guessType guessExt uuids role texts
    simp [process_openai_message, process_parts_text_only]
  · intro guessType guessExt uuids
    rfl

/-- C8: a request whose inbox never receives a fragment decodes to exactly
one timeout error event naming the configured timeout, and no content
events. -/
theorem c8_timeout_single_error (g : GlobalState) (timeout : Nat) :
    process_lmarena_stream g initial_decode timeout [] =
      ([.error (.str (timeout_error_message timeout))], g, []) := rfl

/-- C9: on an event stream with a single finish event, both formatters add
the fixed warning text exactly when the finish reason is `content-filter`,
report that reason, and add nothing for any other reason. -/
theorem c9_content_filter_warning (xs ys : List String) (r : JVal) :
    stream_generator (xs.map StreamEvent.content ++ (StreamEvent.finish r :: ys.map StreamEvent.content))
      = xs.map SSEChunk.content
        ++ ((if r.isStrEq "content-filter" then [SSEChunk.content content_filter_warning] else [])
            ++ (ys.map SSEChunk.content ++ [SSEChunk.finishChunk r]))
  ∧ non_stream_response (xs.map StreamEvent.content ++ (StreamEvent.finish r :: ys.map StreamEvent.content))
      = .ok (strJoin xs ++ ((if r.isStrEq "content-filter" then content_filter_warning else "") ++ strJoin ys)) r := by
  constructor
  · rw [stream_generator, stream_generator_fold_contents]
    simp only [stream_generator_fold, stream_generator_fold_contents_only]
  · rw [non_stream_response, non_stream_fold_contents]
    simp only [non_stream_fold, non_stream_fold_contents_only]
    rw [strAppend_empty_left, strAppend_assoc]

/-- C10: when the resolved session or message id is missing, empty, or
contains the `YOUR_` placeholder, `chat_completions` rejects the request
with status 400 without registering a response channel and without sending
anything over the link: the correlator state is returned unchanged. -/
theorem c10_invalid_session_rejected (st : CorrelatorState)
    (sessionId messageId : Option String) (requestId : String)
    (h : session_info_invalid sessionId messageId = true) :
    chat_completions_validate_and_register st sessionId messageId requestId
      = (st, .reject 400) := by
  simp [chat_completions_validate_and_register, h]

/-- Witness for C10 at a session id carrying the placeholder. -/
theorem c10_invalid_session_rejected_witness :
    (session_info_invalid (some "YOUR_session_id") (some "c3fd61d1-2c1f-4f33-ae19-2bba15ab0606") = true)
  ∧ chat_completions_validate_and_register ⟨[], []⟩
      (some "YOUR_session_id") (some "c3fd61d1-2c1f-4f33-ae19-2bba15ab0606") "req-1"
      = (⟨[], []⟩, .reject 400) :=
  ⟨by decide,
   c10_invalid_session_rejected ⟨[], []⟩ (some "YOUR_session_id")
     (some "c3fd61d1-2c1f-4f33-ae19-2bba15ab0606") "req-1" (by decide)⟩

/-- C1: on the three-fragment sequence (text token `Hi`, finish marker
`stop`, terminal sentinel) the decoder emits exactly Content `Hi` then
Finish `stop`; without the sentinel the loop does not terminate at the
finish event but keeps waiting (and eventually times out); and the
aggregated response carries content `Hi` with finish reason `stop`. -/
theorem c1_finish_does_not_terminate :
    process_lmarena_stream connected_global initial_decode 360 c1_fragments
      = ([.content "Hi", .finish (.str "stop")], connected_global, [])
  ∧ process_lmarena_stream connected_global initial_decode 360 (c1_fragments.take 2)
      = ([.content "Hi", .finish (.str "stop"),
          .error (.str (timeout_error_message 360))], connected_global, [])
  ∧ non_stream_response
      (process_lmarena_stream connected_global initial_decode 360 c1_fragments).1
      = .ok "Hi" (.str "stop") :=
  ⟨rfl, rfl, rfl⟩

/-- C2: the text-token extraction splits only at correct escape boundaries:
for any plain texts `s` and `t`, the token whose escaped body is `s`, an
escaped quote, then `t` is matched as one group ending at the final
unescaped quote, and unescapes to `s`, a quote, `t`; in particular the
buffered input `a0:"hi\"there"` decodes to the single content `hi"there"`. -/
theorem c2_escape_boundaries (s t : List Char)
    (hs : s.all plain_text_char = true) (ht : t.all plain_text_char = true) :
    text_pattern_search ('a' :: '0' :: ':' :: '"' :: (s ++ (('\\' :: '"' :: t) ++ ['"'])))
      = some (s ++ ('\\' :: '"' :: t), [])
  ∧ json_loads_quoted (s ++ ('\\' :: '"' :: t)) = some (String.mk (s ++ ('"' :: t)))
  ∧ process_lmarena_stream connected_global initial_decode 360
        [.text "a0:\"hi\\\"there\"", .text "[DONE]"]
      = ([.content "hi\"there"], connected_global, []) := by
  refine ⟨?_, ?_, rfl⟩
  · show (match scanEsc (s ++ (('\\' :: '"' :: t) ++ ['"'])) with
      | some p => some p
      | none => text_pattern_search ('0' :: ':' :: '"' :: (s ++ (('\\' :: '"' :: t) ++ ['"'])))) = _
    rw [scanEsc_append s _ hs]
    rw [show scanEsc (('\\' :: '"' :: t) ++ ['"'])
        = (scanEsc (t ++ ['"'])).map (fun p => ('\\' :: '"' :: p.1, p.2)) from rfl]
    rw [scanEsc_append t _ ht]
    rw [show scanEsc ['"'] = some ([], []) from rfl]
    simp
  · rw [json_loads_quoted, List.append_assoc, jsonStringBody_append s _ hs]
    rw [show jsonStringBody (('\\' :: '"' :: t) ++ ['"'])
        = (jsonStringBody (t ++ ['"'])).map (fun p => ('"' :: p.1, p.2)) from by
      rw [jsonStringBody.eq_def]
      rfl]
    rw [jsonStringBody_append t _ ht]
    rw [show jsonStringBody ['"'] = some ([], []) from by
      rw [jsonStringBody.eq_def]
      rfl]
    simp

/-- Witness for C2 at `s = hi`, `t = there`. -/
theorem c2_escape_boundaries_witness :
    ("hi".toList.all plain_text_char = true)
  ∧ ("there".toList.all plain_text_char = true)
  ∧ (text_pattern_search
        ('a' :: '0' :: ':' :: '"' :: ("hi".toList ++ (('\\' :: '"' :: "there".toList) ++ ['"'])))
        = some ("hi".toList ++ ('\\' :: '"' :: "there".toList), [])
     ∧ json_loads_quoted ("hi".toList ++ ('\\' :: '"' :: "there".toList))
         = some (String.mk ("hi".toList ++ ('"' :: "there".toList)))
     ∧ process_lmarena_stream connected_global initial_decode 360
           [.text "a0:\"hi\\\"there\"", .text "[DONE]"]
         = ([.content "hi\"there"], connected_global, [])) :=
  ⟨by decide, by decide,
   c2_escape_boundaries "hi".toList "there".toList (by decide) (by decide)⟩

/-- C3: on a fresh connection (flag down, browser link up), the first
challenge-page detection terminates the request with the refresh-sent
message, raises the process-wide flag, and sends exactly one refresh
command; a second detection while the flag is up yields the waiting
message and sends nothing; and a new WebSocket connection resets the
flag. -/
theorem c3_verification_deduplicated (g : GlobalState) (hy1 hy2 : Bool)
    (h1 : g.isRefreshingForVerification = false)
    (h2 : g.browserConnected = true) :
    (process_fragment g ⟨[], hy1⟩ challenge_fragment).halt = true
  ∧ (process_fragment g ⟨[], hy1⟩ challenge_fragment).events
      = [.error (.str "检测到人机验证，已发送刷新指令，请稍后重试。")]
  ∧ (process_fragment g ⟨[], hy1⟩ challenge_fragment).commands = [.refresh]
  ∧ (process_fragment g ⟨[], hy1⟩ challenge_fragment).global.isRefreshingForVerification = true
  ∧ (process_fragment (process_fragment g ⟨[], hy1⟩ challenge_fragment).global
        ⟨[], hy2⟩ challenge_fragment).events
      = [.error (.str "正在等待人机验证完成...")]
  ∧ (process_fragment (process_fragment g ⟨[], hy1⟩ challenge_fragment).global
        ⟨[], hy2⟩ challenge_fragment).commands = []
  ∧ (process_fragment (process_fragment g ⟨[], hy1⟩ challenge_fragment).global
        ⟨[], hy2⟩ challenge_fragment).global
      = (process_fragment g ⟨[], hy1⟩ challenge_fragment).global
  ∧ (websocket_new_connection
        (process_fragment g ⟨[], hy1⟩ challenge_fragment).global).isRefreshingForVerification
      = false := by
  obtain ⟨gr, gb⟩ := g
  simp only at h1 h2
  subst h1 h2
  exact ⟨rfl, rfl, rfl, rfl, rfl, rfl, rfl, rfl⟩

/-- Witness for C3 at the fresh connected state. -/
theorem c3_verification_deduplicated_witness :
    (connected_global.isRefreshingForVerification = false)
  ∧ (connected_global.browserConnected = true)
  ∧ (process_fragment connected_global ⟨[], false⟩ challenge_fragment).commands = [.refresh]
  ∧ (process_fragment (process_fragment connected_global ⟨[], false⟩ challenge_fragment).global
        ⟨[], false⟩ challenge_fragment).commands = [] :=
  ⟨rfl, rfl,
   (c3_verification_deduplicated connected_global false false rfl rfl).2.2.1,
   (c3_verification_deduplicated connected_global false false rfl rfl).2.2.2.2.2.1⟩

/-- C4: the disconnect cleanup delivers the synthetic disconnect error
fragment to every pending inbox and then clears the table, and the decoder
turns that fragment into a terminal error event, so no waiting caller
blocks forever. -/
theorem c4_disconnect_unblocks (channels : List (String × List Fragment))
    (rid : String) (inbox : List Fragment) (h : (rid, inbox) ∈ channels) :
    ((rid, inbox ++ [browser_disconnect_fragment]) ∈ (websocket_disconnect_cleanup channels).1)
  ∧ (websocket_disconnect_cleanup channels).2 = []
  ∧ ∀ (g : GlobalState) (st : DecodeState),
      (process_fragment g st browser_disconnect_fragment).halt = true
      ∧ (process_fragment g st browser_disconnect_fragment).events
          = [.error (.str "Browser disconnected during operation")] := by
  refine ⟨?_, rfl, fun g st => ⟨rfl, rfl⟩⟩
  exact List.mem_map_of_mem _ h

/-- Witness for C4 at a table with one pending request. -/
theorem c4_disconnect_unblocks_witness :
    (("req-1", ([] : List Fragment)) ∈ [("req-1", ([] : List Fragment))])
  ∧ (("req-1", ([] : List Fragment) ++ [browser_disconnect_fragment])
      ∈ (websocket_disconnect_cleanup [("req-1", ([] : List Fragment))]).1) :=
  ⟨List.mem_singleton.mpr rfl,
   (c4_disconnect_unblocks [("req-1", [])] "req-1" [] (List.mem_singleton.mpr rfl)).1⟩

/-- C5 counterexample: on the user message `abc--bypass` with an image
attachment, the transform leaves content `ab`, not `abc` — the source
removes nine characters (the eight-character suffix plus the character
before it), so the preceding text is not left intact. -/
theorem c5_counterexample :
    (bypass_image_transform c5_claim_input).map (fun m => m.content) = ["Hi", "", "ab"]
  ∧ ¬((bypass_image_transform c5_claim_input).map (fun m => m.content) = ["Hi", "", "abc"]) := by
  constructor
  · rfl
  · decide

/-- C5 as amended: when the final message is a user turn whose stripped
content ends in `--bypass` and which carries an image attachment, the
stripped content loses its last nine characters (the suffix plus the
character before it) and is stripped again; the attachments move into a
synthetic empty assistant turn inserted immediately before the user turn;
and a synthetic minimal user turn is prepended exactly when the resulting
list starts with an assistant turn. -/
theorem c5_bypass_transform (pre : List MessageTemplate) (last : MessageTemplate)
    (h1 : last.role = "user")
    (h2 : strEndsWith (pyStrip last.content) "--bypass" = true)
    (h3 : hasImageAttachment last.attachments = true) :
    bypass_image_transform (pre ++ [last])
      = (if ((pre ++ [MessageTemplate.mk "assistant" "" last.attachments,
              { last with content := pyStrip (strDropRight (pyStrip last.content) 9),
                          attachments := [] }]).headD fake_user_message).role = "assistant"
         then fake_user_message
              :: (pre ++ [MessageTemplate.mk "assistant" "" last.attachments,
                  { last with content := pyStrip (strDropRight (pyStrip last.content) 9),
                              attachments := [] }])
         else pre ++ [MessageTemplate.mk "assistant" "" last.attachments,
              { last with content := pyStrip (strDropRight (pyStrip last.content) 9),
                          attachments := [] }]) := by
  have hne : last.attachments.isEmpty = false := by
    cases hl : last.attachments with
    | nil => rw [hasImageAttachment, hl] at h3; simp at h3
    | cons a l => simp [hl]
  rw [bypass_image_transform, List.getLast?_concat, List.dropLast_concat]
  simp [h1, h2, h3, hne]
  cases pre with
  | nil => rfl
  | cons p ps => rfl

/-- Witness for C5 at a user message with a separating space before the
suffix, showing the amended statement at a concrete input. -/
theorem c5_bypass_transform_witness :
    ((⟨"user", "look at this --bypass",
        [⟨"i.png", "image/png", "http://example/i.png"⟩]⟩ : MessageTemplate).role = "user")
  ∧ (strEndsWith (pyStrip (⟨"user", "look at this --bypass",
        [⟨"i.png", "image/png", "http://example/i.png"⟩]⟩ : MessageTemplate).content) "--bypass" = true)
  ∧ (hasImageAttachment (⟨"user", "look at this --bypass",
        [⟨"i.png", "image/png", "http://example/i.png"⟩]⟩ : MessageTemplate).attachments = true)
  ∧ bypass_image_transform [⟨"user", "look at this --bypass",
        [⟨"i.png", "image/png", "http://example/i.png"⟩]⟩]
      = [fake_user_message,
         ⟨"assistant", "", [⟨"i.png", "image/png", "http://example/i.png"⟩]⟩,
         ⟨"user", "look at this", []⟩] := by
  refine ⟨rfl, by decide, by decide, ?_⟩
  have h := c5_bypass_transform []
    ⟨"user", "look at this --bypass", [⟨"i.png", "image/png", "http://example/i.png"⟩]⟩
    rfl (by decide) (by decide)
  simpa using h

/-- C6 counterexample: an upstream error fragment whose message is
`file too large` contains no `413` substring, yet the aggregated path
returns status 413 with code `attachment_too_large`, not the generic
`processing_error` the claim requires for such errors. -/
theorem c6_counterexample :
    non_stream_response
        (process_lmarena_stream connected_global initial_decode 360
          [.errDict (.str "file too large")]).1
      = .err 413 "attachment_too_large"
          ("[LMArena Bridge Error]: " ++ friendly_attachment_error)
  ∧ ¬("attachment_too_large" = "processing_error") := by
  constructor
  · rfl
  · decide

/-- C6 as amended: an upstream error fragment whose message contains `413`
(or, case-insensitively, `too large`) is replaced by the friendly
oversized-attachment message and terminates the decode; and the aggregated
path returns status 413 with code `attachment_too_large` exactly when the
error text carries the oversized marker, and status 500 with code
`processing_error` otherwise. -/
theorem c6_oversized_mapping (g : GlobalState) (st : DecodeState) (s : String)
    (m : JVal) (acc : String) (fr : JVal) (rest : List StreamEvent)
    (h : (strContains s "413" || strContains (strLower s) "too large") = true) :
    (process_fragment g st (.errDict (.str s))).events
        = [.error (.str friendly_attachment_error)]
  ∧ (process_fragment g st (.errDict (.str s))).halt = true
  ∧ non_stream_fold acc fr (.error m :: rest)
      = .err (if strContains (pyStr m) oversized_marker then 413 else 500)
             (if strContains (pyStr m) oversized_marker
              then "attachment_too_large" else "processing_error")
             ("[LMArena Bridge Error]: " ++ pyStr m) := by
  refine ⟨?_, ?_, ?_⟩
  · simp [process_fragment, h]
  · simp [process_fragment, h]
  · rcases Bool.eq_false_or_eq_true (strContains (pyStr m) oversized_marker) with hc | hc <;>
      simp [non_stream_fold, hc]

/-- Witness for C6 at a message matched by the case-insensitive `too large`
disjunct (it contains no `413`), aggregating the friendly oversized
message itself. -/
theorem c6_oversized_mapping_witness :
    ((strContains "upload failed: File Too Large" "413"
        || strContains (strLower "upload failed: File Too Large") "too large") = true)
  ∧ ((process_fragment connected_global initial_decode
        (.errDict (.str "upload failed: File Too Large"))).events
        = [.error (.str friendly_attachment_error)]
     ∧ (process_fragment connected_global initial_decode
          (.errDict (.str "upload failed: File Too Large"))).halt = true
     ∧ non_stream_fold "" (JVal.str "stop")
          (.error (.str friendly_attachment_error) :: [])
         = .err (if strContains (pyStr (.str friendly_attachment_error)) oversized_marker then 413 else 500)
                (if strContains (pyStr (.str friendly_attachment_error)) oversized_marker
                 then "attachment_too_large" else "processing_error")
                ("[LMArena Bridge Error]: " ++ pyStr (.str friendly_attachment_error))) :=
  ⟨by decide,
   c6_oversized_mapping connected_global initial_decode "upload failed: File Too Large"
     (.str friendly_attachment_error) "" (JVal.str "stop") [] (by decide)⟩

end LMArenaBridge
